import Mathlib

/-!
Verification of the registration/login form repository: a shallow embedding
of the age-eligibility validator and the registration store of
`backend-nodejs/server.js`, together with the client-side validation of
`frontend/src/components/RegistrationForm.jsx`, and proofs of the stated
properties.

Dates are triples of naturals `(year, month, day)`.  The JavaScript code
builds birth dates with `new Date(year, month - 1, day)`, which silently
normalizes a day count larger than the month length by rolling into the
following month; the embedding reproduces this for the validated input
domain (month between 1 and 12, day at least 1), the only domain on which
the server ever calls `calculateAge` after its request validation
middleware.  Machine numbers are embedded as `Nat`/`Int` (ages can be
negative when the birth date lies in the future, so ages are `Int`).
-/

namespace RegForm

/-- A calendar date `(year, month, day)` with month 1–12 in normal form. -/
structure Date where
  year : Nat
  month : Nat
  day : Nat
deriving DecidableEq, Repr

/-- Gregorian leap-year test, as implemented by the JavaScript `Date`. -/
def isLeapYear (y : Nat) : Bool :=
  (y % 4 == 0 && y % 100 != 0) || (y % 400 == 0)

/-- Number of days of month `m` (1–12) of year `y`. -/
def daysInMonth (y m : Nat) : Nat :=
  if m = 2 then (if isLeapYear y then 29 else 28)
  else if m = 4 ∨ m = 6 ∨ m = 9 ∨ m = 11 then 30
  else 31

/-- Roll an oversized day count into the following months, as the JavaScript
`Date` constructor does (`new Date(2024, 1, 31)` is March 2, 2024).  The
fuel argument bounds the recursion; `d` itself is always enough fuel since
every month has at least 28 days. -/
def rollDays (y m d : Nat) : Nat → Date
  | 0 => ⟨y, m, d⟩
  | fuel + 1 =>
    if d ≤ daysInMonth y m then ⟨y, m, d⟩
    else if m = 12 then rollDays (y + 1) 1 (d - 31) fuel
    else rollDays y (m + 1) (d - daysInMonth y m) fuel

/-- The date denoted by `new Date(y, m - 1, d)` for month `m ≥ 1` and day
`d ≥ 1`: months beyond 12 carry into the year, oversized days roll into the
following months. -/
def mkDate (y m d : Nat) : Date :=
  rollDays (y + (m - 1) / 12) ((m - 1) % 12 + 1) d d

/-- `calculateAge` from `server.js`: the year difference between `today` and
the (normalized) birth date, decremented by one when today's month/day
precede the birth month/day. -/
def calculateAge (year month day : Nat) (today : Date) : Int :=
  let birthDate := mkDate year month day
  let age : Int := (today.year : Int) - (birthDate.year : Int)
  if today.month < birthDate.month ∨
      (today.month = birthDate.month ∧ today.day < birthDate.day) then
    age - 1
  else
    age

/-- `validateAge` from `server.js`: the list of violated eligibility rules,
in source order; empty means eligible. -/
def validateAge (age : Int) (gender : String) : List String :=
  (if gender = "Male" ∧ age < 21 then ["Men must be at least 21 years old"] else []) ++
  (if gender = "Female" ∧ age < 18 then ["Women must be at least 18 years old"] else []) ++
  (if age > 40 then
    ["Maximum age for both genders is 40 years. Please visit our other site for registration."]
  else [])

/-- The age computation inside the `useEffect` of `RegistrationForm.jsx`
(lines 109–116), embedded separately from the server's `calculateAge`; the
two bodies are textually identical in the source. -/
def clientCalculateAge (year month day : Nat) (today : Date) : Int :=
  let birthDate := mkDate year month day
  let age : Int := (today.year : Int) - (birthDate.year : Int)
  if today.month < birthDate.month ∨
      (today.month = birthDate.month ∧ today.day < birthDate.day) then
    age - 1
  else
    age

/-- The validation chain inside the `useEffect` of `RegistrationForm.jsx`
(lines 119–127): the single message stored in `ageValidation`, the empty
string meaning eligible. -/
def clientAgeValidation (gender : String) (age : Int) : String :=
  if gender = "Male" ∧ age < 21 then "Men must be at least 21 years old"
  else if gender = "Female" ∧ age < 18 then "Women must be at least 18 years old"
  else if age > 40 then
    "Maximum age for both genders is 40 years. If above 40, please visit our other site."
  else ""

/-- A stored registrant (the persisted fields the eligibility claims are
about; optional descriptive fields carry no control flow and are omitted). -/
structure UserRec where
  id : Nat
  fullName : String
  dobYear : Nat
  dobMonth : Nat
  dobDay : Nat
  gender : String
  age : Int
deriving DecidableEq, Repr

/-- A create/update request body (the required fields; the optional
descriptive fields have no effect on any handler decision). -/
structure RegisterBody where
  fullName : String
  dobYear : Nat
  dobMonth : Nat
  dobDay : Nat
  gender : String
deriving DecidableEq, Repr

/-- JavaScript's `String.prototype.trim`, embedded structurally over the
character list: leading and trailing whitespace removed. -/
def trimName (s : String) : String :=
  ⟨((s.data.dropWhile Char.isWhitespace).reverse.dropWhile Char.isWhitespace).reverse⟩

/-- The `fullName` checks of the `registrationValidation` middleware:
non-empty, 2–50 characters, letters and whitespace only (the regex
`^[a-zA-Z\s]+$`), embedded structurally over the character list. -/
def validName (s : String) : Bool :=
  !s.data.isEmpty && decide (2 ≤ s.data.length) && decide (s.data.length ≤ 50) &&
    s.data.all (fun c => c.isAlpha || c.isWhitespace)

/-- The `registrationValidation` middleware of `server.js`: field-shape
checks run before the handler body (year 1940..current year, month 01–12,
day 1–31, gender an enum value). -/
def validBody (today : Date) (b : RegisterBody) : Bool :=
  validName b.fullName &&
  decide (1940 ≤ b.dobYear) && decide (b.dobYear ≤ today.year) &&
  decide (1 ≤ b.dobMonth) && decide (b.dobMonth ≤ 12) &&
  decide (1 ≤ b.dobDay) && decide (b.dobDay ≤ 31) &&
  (b.gender == "Male" || b.gender == "Female")

/-- The duplicate lookup of the POST `/api/register` handler: an existing
record with the trimmed full name and the same date-of-birth components. -/
def isDuplicate (b : RegisterBody) (store : List UserRec) : Bool :=
  store.any fun u =>
    u.fullName == trimName b.fullName && u.dobYear == b.dobYear &&
    u.dobMonth == b.dobMonth && u.dobDay == b.dobDay

/-- The POST `/api/register` handler: middleware validation, age
computation, eligibility gate, duplicate check, then insertion.  Returns
the HTTP status and the resulting store; `newId` stands for the identifier
the database generates. -/
def registerHandler (today : Date) (newId : Nat) (b : RegisterBody)
    (store : List UserRec) : Nat × List UserRec :=
  if !validBody today b then (400, store)
  else
    let age := calculateAge b.dobYear b.dobMonth b.dobDay today
    if (validateAge age b.gender).length > 0 then (400, store)
    else if isDuplicate b store then (409, store)
    else (201, store ++ [⟨newId, trimName b.fullName, b.dobYear, b.dobMonth, b.dobDay, b.gender, age⟩])

/-- Replace the record with the given identifier (Mongo identifiers are
unique, so replacing the first match models `findByIdAndUpdate`). -/
def replaceById (id : Nat) (nu : UserRec) : List UserRec → List UserRec
  | [] => []
  | u :: rest => if u.id = id then nu :: rest else u :: replaceById id nu rest

/-- Whether a record with the given identifier exists in the store. -/
def existsId (id : Nat) (store : List UserRec) : Bool :=
  store.any fun u => u.id == id

/-- The PUT `/api/users/:id` handler: middleware validation, age
recomputation, eligibility gate, then full-record replacement
(`findByIdAndUpdate`), 404 when the identifier is unknown. -/
def updateHandler (today : Date) (id : Nat) (b : RegisterBody)
    (store : List UserRec) : Nat × List UserRec :=
  if !validBody today b then (400, store)
  else
    let age := calculateAge b.dobYear b.dobMonth b.dobDay today
    if (validateAge age b.gender).length > 0 then (400, store)
    else if existsId id store then
      (200, replaceById id ⟨id, trimName b.fullName, b.dobYear, b.dobMonth, b.dobDay, b.gender, age⟩ store)
    else (404, store)

/-- The DELETE `/api/users/:id` handler (`findByIdAndDelete`). -/
def deleteHandler (id : Nat) (store : List UserRec) : Nat × List UserRec :=
  if existsId id store then (200, store.eraseP fun u => u.id == id)
  else (404, store)

/-- The POST `/api/validate-age` handler: rejects when a field is falsy
(`none` models the 400 missing-fields response, a zero number and the
empty string are falsy in JavaScript), otherwise answers with the computed
age, the validity flag and the violation list — no gender enum check. -/
def validateAgeEndpoint (year month day : Nat) (gender : String)
    (today : Date) : Option (Int × Bool × List String) :=
  if year = 0 ∨ month = 0 ∨ day = 0 ∨ gender = "" then none
  else
    let age := calculateAge year month day today
    some (age, (validateAge age gender).isEmpty, validateAge age gender)

/-- States of the registration store reachable from the empty store through
the mutating endpoints, each request carrying its own current date. -/
inductive Reachable : List UserRec → Prop where
  | empty : Reachable []
  | register (today : Date) (newId : Nat) (b : RegisterBody) {s : List UserRec} :
      Reachable s → Reachable (registerHandler today newId b s).2
  | update (today : Date) (id : Nat) (b : RegisterBody) {s : List UserRec} :
      Reachable s → Reachable (updateHandler today id b s).2
  | delete (id : Nat) {s : List UserRec} :
      Reachable s → Reachable (deleteHandler id s).2

/-- Normalization is the identity on calendar-valid dates. -/
lemma mkDate_of_valid {y m d : Nat} (hm1 : 1 ≤ m) (hm2 : m ≤ 12)
    (hd2 : d ≤ daysInMonth y m) : mkDate y m d = ⟨y, m, d⟩ := by
  have h1 : (m - 1) / 12 = 0 := Nat.div_eq_of_lt (by omega)
  have h2 : (m - 1) % 12 = m - 1 := Nat.mod_eq_of_lt (by omega)
  have h3 : m - 1 + 1 = m := by omega
  unfold mkDate
  rw [h1, h2, h3, Nat.add_zero]
  cases d with
  | zero => simp [rollDays]
  | succ n => simp [rollDays, hd2]

/-- Claim C4: `calculateAge` is anniversary-exact: on a calendar-valid birth
date it is the year difference, decremented by one exactly when the
reference (month, day) precedes the birth (month, day); in particular a
2000-06-15 birth gives age 23 on 2024-06-14 and age 24 on 2024-06-15. -/
theorem calculateAge_anniversary (y m d : Nat) (t : Date)
    (hm1 : 1 ≤ m) (hm2 : m ≤ 12) (_hd1 : 1 ≤ d) (hd2 : d ≤ daysInMonth y m) :
    (calculateAge y m d t =
      ((t.year : Int) - (y : Int)) -
        (if t.month < m ∨ (t.month = m ∧ t.day < d) then 1 else 0)) ∧
    calculateAge 2000 6 15 ⟨2024, 6, 14⟩ = 23 ∧
    calculateAge 2000 6 15 ⟨2024, 6, 15⟩ = 24 := by
  refine ⟨?_, by decide, by decide⟩
  simp only [calculateAge, mkDate_of_valid hm1 hm2 hd2]
  split_ifs <;> omega

/-- Witness for C4 at the two concrete dates of the claim. -/
theorem calculateAge_anniversary_witness :
    calculateAge 2000 6 15 ⟨2024, 6, 14⟩ = 23 ∧
    calculateAge 2000 6 15 ⟨2024, 6, 15⟩ = 24 :=
  ⟨(calculateAge_anniversary 2000 6 15 ⟨2024, 6, 14⟩ (by decide) (by decide)
      (by decide) (by decide)).2.1,
   (calculateAge_anniversary 2000 6 15 ⟨2024, 6, 15⟩ (by decide) (by decide)
      (by decide) (by decide)).2.2⟩

/-- Claim C3 (counterexample): at age 41 (gender Male) the violation list
does not contain the bare message "Maximum age for both genders is 40
years" — the source message carries an extra trailing sentence. -/
theorem maxAge_short_message_absent :
    "Maximum age for both genders is 40 years" ∉ validateAge 41 "Male" := by
  decide

/-- Claim C3 (amended): for every age above 40 and every gender the
violation list contains the full maximum-age message of the source,
"Maximum age for both genders is 40 years. Please visit our other site
for registration." -/
theorem maxAge_rule (a : Int) (g : String) (ha : 40 < a) :
    "Maximum age for both genders is 40 years. Please visit our other site for registration."
      ∈ validateAge a g := by
  unfold validateAge
  rw [if_pos ha]
  simp

/-- Witness for the amended C3 at age 41, gender Male. -/
theorem maxAge_rule_witness :
    "Maximum age for both genders is 40 years. Please visit our other site for registration."
      ∈ validateAge 41 "Male" :=
  maxAge_rule 41 "Male" (by decide)

/-- Claim C5: below the gender-specific minimum age, the corresponding
minimum-age message is among the violations. -/
theorem minAge_rules (a : Int) :
    (a < 21 → "Men must be at least 21 years old" ∈ validateAge a "Male") ∧
    (a < 18 → "Women must be at least 18 years old" ∈ validateAge a "Female") := by
  constructor <;> intro h <;> simp [validateAge, h]

/-- Witness for C5 at ages 20 (Male) and 17 (Female). -/
theorem minAge_rules_witness :
    "Men must be at least 21 years old" ∈ validateAge 20 "Male" ∧
    "Women must be at least 18 years old" ∈ validateAge 17 "Female" :=
  ⟨(minAge_rules 20).1 (by decide), (minAge_rules 17).2 (by decide)⟩

/-- Claim C6: inside the eligible range (Male 21–40, Female 18–40) the
violation list is empty. -/
theorem eligible_range_passes (a : Int) :
    (21 ≤ a → a ≤ 40 → validateAge a "Male" = []) ∧
    (18 ≤ a → a ≤ 40 → validateAge a "Female" = []) := by
  constructor <;> intro h1 h2 <;> simp only [validateAge] <;>
    split_ifs <;> simp_all <;> omega

/-- Witness for C6 at age 30 for both genders. -/
theorem eligible_range_passes_witness :
    validateAge 30 "Male" = [] ∧ validateAge 30 "Female" = [] :=
  ⟨(eligible_range_passes 30).1 (by decide) (by decide),
   (eligible_range_passes 30).2 (by decide) (by decide)⟩

/-- Claim C9: the three rule conditions are pairwise exclusive, so
`validateAge` never returns more than one message. -/
theorem validateAge_at_most_one (a : Int) (g : String) :
    (validateAge a g).length ≤ 1 := by
  simp only [validateAge]
  split_ifs <;> simp_all <;> omega

/-- Claim C10: a gender outside the enum is only subject to the
maximum-age rule, so any age at most 40 passes, and the
`/api/validate-age` endpoint accepts any non-empty gender string without
an enum check and reports such an input as valid. -/
theorem other_gender_passes (g : String) (a : Int) (y m d : Nat) (t : Date)
    (hm : g ≠ "Male") (hf : g ≠ "Female") :
    (a ≤ 40 → validateAge a g = []) ∧
    (g ≠ "" → y ≠ 0 → m ≠ 0 → d ≠ 0 → calculateAge y m d t ≤ 40 →
      validateAgeEndpoint y m d g t = some (calculateAge y m d t, true, [])) := by
  have hv : ∀ b : Int, b ≤ 40 → validateAge b g = [] := by
    intro b hb
    simp only [validateAge]
    split_ifs <;> simp_all <;> omega
  refine ⟨hv a, fun hg hy hm0 hd0 hle => ?_⟩
  simp only [validateAgeEndpoint]
  rw [if_neg (by simp [hy, hm0, hd0, hg])]
  simp [hv _ hle]

/-- Witness for C10 with gender "Other", age 30, and the 1995-06-15 birth
date at reference date 2024-06-15. -/
theorem other_gender_passes_witness :
    validateAge 30 "Other" = [] ∧
    validateAgeEndpoint 1995 6 15 "Other" ⟨2024, 6, 15⟩ = some (29, true, []) := by
  have h := other_gender_passes "Other" 30 1995 6 15 ⟨2024, 6, 15⟩
    (by decide) (by decide)
  refine ⟨h.1 (by decide), ?_⟩
  have h2 := h.2 (by decide) (by decide) (by decide) (by decide) (by decide)
  rw [h2]
  decide

/-- For the two enum genders, the client's single-message validation and
the server's violation list agree on the verdict, and agree on the message
whenever the age is at most 40 (the two sources spell the maximum-age
message differently). -/
lemma client_server_validation_core (g : String) (a : Int)
    (hg : g = "Male" ∨ g = "Female") :
    (clientAgeValidation g a = "" ↔ validateAge a g = []) ∧
    (a ≤ 40 →
      validateAge a g =
        if clientAgeValidation g a = "" then [] else [clientAgeValidation g a]) := by
  rcases hg with rfl | rfl <;>
    refine ⟨?_, fun hle => ?_⟩ <;>
    simp only [clientAgeValidation, validateAge] <;>
    split_ifs <;> simp_all <;> omega

/-- Claim C2 (counterexample): on birth date 1980-01-01, gender Male,
reference date 2024-06-15, the client and the server compute the same age
and both report ineligibility, but the client's message differs from the
server's (the over-40 texts drifted apart). -/
theorem client_server_message_mismatch :
    clientCalculateAge 1980 1 1 ⟨2024, 6, 15⟩ = calculateAge 1980 1 1 ⟨2024, 6, 15⟩ ∧
    clientAgeValidation "Male" (clientCalculateAge 1980 1 1 ⟨2024, 6, 15⟩) ≠ "" ∧
    validateAge (calculateAge 1980 1 1 ⟨2024, 6, 15⟩) "Male" ≠ [] ∧
    [clientAgeValidation "Male" (clientCalculateAge 1980 1 1 ⟨2024, 6, 15⟩)] ≠
      validateAge (calculateAge 1980 1 1 ⟨2024, 6, 15⟩) "Male" := by
  decide

/-- Claim C2 (amended): for both enum genders and every birth date and
reference date, the client computes the same age as the server, the two
validators give the same eligible/ineligible verdict, and for ages at
most 40 the very same message list; only the over-40 message texts
differ. -/
theorem client_server_agree (g : String) (y m d : Nat) (t : Date)
    (hg : g = "Male" ∨ g = "Female") :
    clientCalculateAge y m d t = calculateAge y m d t ∧
    (clientAgeValidation g (calculateAge y m d t) = "" ↔
      validateAge (calculateAge y m d t) g = []) ∧
    (calculateAge y m d t ≤ 40 →
      validateAge (calculateAge y m d t) g =
        if clientAgeValidation g (calculateAge y m d t) = "" then []
        else [clientAgeValidation g (calculateAge y m d t)]) :=
  ⟨rfl, (client_server_validation_core g (calculateAge y m d t) hg).1,
    (client_server_validation_core g (calculateAge y m d t) hg).2⟩

/-- Witness for the amended C2 at gender Male, birth 1995-06-15, reference
date 2024-06-15. -/
theorem client_server_agree_witness :
    clientCalculateAge 1995 6 15 ⟨2024, 6, 15⟩ = calculateAge 1995 6 15 ⟨2024, 6, 15⟩ ∧
    (clientAgeValidation "Male" (calculateAge 1995 6 15 ⟨2024, 6, 15⟩) = "" ↔
      validateAge (calculateAge 1995 6 15 ⟨2024, 6, 15⟩) "Male" = []) ∧
    validateAge (calculateAge 1995 6 15 ⟨2024, 6, 15⟩) "Male" =
      (if clientAgeValidation "Male" (calculateAge 1995 6 15 ⟨2024, 6, 15⟩) = "" then []
       else [clientAgeValidation "Male" (calculateAge 1995 6 15 ⟨2024, 6, 15⟩)]) := by
  have h := client_server_agree "Male" 1995 6 15 ⟨2024, 6, 15⟩ (Or.inl rfl)
  exact ⟨h.1, h.2.1, h.2.2 (by decide)⟩

/-- Any member of the store after a create was already there, or satisfies
the eligibility rule (it is the freshly gated record). -/
lemma eligible_of_mem_register {today : Date} {newId : Nat} {b : RegisterBody}
    {s : List UserRec} {u : UserRec}
    (hu : u ∈ (registerHandler today newId b s).2) :
    u ∈ s ∨ validateAge u.age u.gender = [] := by
  simp only [registerHandler] at hu
  split_ifs at hu with h1 h2 h3
  · exact Or.inl hu
  · exact Or.inl hu
  · exact Or.inl hu
  · rcases List.mem_append.1 hu with hmem | hmem
    · exact Or.inl hmem
    · right
      rcases List.mem_singleton.1 hmem with rfl
      show validateAge (calculateAge b.dobYear b.dobMonth b.dobDay today) b.gender = []
      exact List.length_eq_zero.1 (by omega)

/-- Membership after `replaceById`: the new record or an old member. -/
lemma mem_replaceById {id : Nat} {nu : UserRec} {l : List UserRec} {u : UserRec}
    (hu : u ∈ replaceById id nu l) : u = nu ∨ u ∈ l := by
  induction l with
  | nil => simp [replaceById] at hu
  | cons v rest ih =>
    simp only [replaceById] at hu
    split_ifs at hu with h
    · rcases List.mem_cons.1 hu with rfl | hmem
      · exact Or.inl rfl
      · exact Or.inr (List.mem_cons_of_mem _ hmem)
    · rcases List.mem_cons.1 hu with rfl | hmem
      · exact Or.inr (List.mem_cons_self _ _)
      · rcases ih hmem with rfl | h2
        · exact Or.inl rfl
        · exact Or.inr (List.mem_cons_of_mem _ h2)

/-- Any member of the store after an update was already there, or satisfies
the eligibility rule (it is the freshly gated replacement). -/
lemma eligible_of_mem_update {today : Date} {id : Nat} {b : RegisterBody}
    {s : List UserRec} {u : UserRec}
    (hu : u ∈ (updateHandler today id b s).2) :
    u ∈ s ∨ validateAge u.age u.gender = [] := by
  simp only [updateHandler] at hu
  split_ifs at hu with h1 h2 h3
  · exact Or.inl hu
  · exact Or.inl hu
  · rcases mem_replaceById hu with rfl | hmem
    · right
      show validateAge (calculateAge b.dobYear b.dobMonth b.dobDay today) b.gender = []
      exact List.length_eq_zero.1 (by omega)
    · exact Or.inl hmem
  · exact Or.inl hu

/-- Deletion only removes records. -/
lemma mem_of_mem_delete {id : Nat} {s : List UserRec} {u : UserRec}
    (hu : u ∈ (deleteHandler id s).2) : u ∈ s := by
  simp only [deleteHandler] at hu
  split_ifs at hu with h
  · exact List.mem_of_mem_eraseP hu
  · exact hu

/-- Claim C1: in every reachable store state, every persisted registrant's
stored age satisfies the eligibility rule for its stored gender — both
create and update gate on `validateAge` before persisting. -/
theorem store_eligibility_invariant {s : List UserRec} (h : Reachable s) :
    ∀ u ∈ s, validateAge u.age u.gender = [] := by
  induction h with
  | empty => intro u hu; simp at hu
  | register today newId b hs ih =>
    intro u hu
    rcases eligible_of_mem_register hu with hmem | hok
    · exact ih u hmem
    · exact hok
  | update today id b hs ih =>
    intro u hu
    rcases eligible_of_mem_update hu with hmem | hok
    · exact ih u hmem
    · exact hok
  | delete id hs ih =>
    intro u hu
    exact ih u (mem_of_mem_delete hu)

/-- Witness for C1 on the concrete reachable store obtained by registering
John Doe (born 1995-06-15, Male) on 2024-06-15. -/
theorem store_eligibility_invariant_witness :
    validateAge (29 : Int) "Male" = [] := by
  have hs : (registerHandler ⟨2024, 6, 15⟩ 1 ⟨"John Doe", 1995, 6, 15, "Male"⟩ []).2
      = [⟨1, "John Doe", 1995, 6, 15, "Male", 29⟩] := by decide
  have hr : Reachable [(⟨1, "John Doe", 1995, 6, 15, "Male", 29⟩ : UserRec)] := by
    rw [← hs]
    exact Reachable.register _ _ _ Reachable.empty
  exact store_eligibility_invariant hr ⟨1, "John Doe", 1995, 6, 15, "Male", 29⟩
    (by simp)

/-- Claim C7 (counterexample): in a reachable store holding John Doe
(born 1984-06-15, Male, age 40 at registration on 2024-06-15), an
identical create request issued on 2030-01-02 matches the stored record,
yet is rejected with 400 — the eligibility gate (recomputed age 45) fires
before the duplicate check ever runs, so the promised 409 is not
produced. -/
theorem duplicate_409_counterexample :
    Reachable [(⟨1, "John Doe", 1984, 6, 15, "Male", 40⟩ : UserRec)] ∧
    isDuplicate ⟨"John Doe", 1984, 6, 15, "Male"⟩
      [⟨1, "John Doe", 1984, 6, 15, "Male", 40⟩] = true ∧
    (registerHandler ⟨2030, 1, 2⟩ 2 ⟨"John Doe", 1984, 6, 15, "Male"⟩
      [⟨1, "John Doe", 1984, 6, 15, "Male", 40⟩]).1 = 400 := by
  refine ⟨?_, by decide, by decide⟩
  have hs : (registerHandler ⟨2024, 6, 15⟩ 1 ⟨"John Doe", 1984, 6, 15, "Male"⟩ []).2
      = [⟨1, "John Doe", 1984, 6, 15, "Male", 40⟩] := by decide
  rw [← hs]
  exact Reachable.register _ _ _ Reachable.empty

/-- Claim C7 (amended): a create request matching an existing record on
(trimmed full name, date-of-birth components) never changes the store,
and is answered with the 409 duplicate status whenever it passes the
field validation and the eligibility gate that run first. -/
theorem duplicate_create_rejected (today : Date) (newId : Nat) (b : RegisterBody)
    (s : List UserRec) (hdup : isDuplicate b s = true) :
    (registerHandler today newId b s).2 = s ∧
    (validBody today b = true →
      validateAge (calculateAge b.dobYear b.dobMonth b.dobDay today) b.gender = [] →
      (registerHandler today newId b s).1 = 409) := by
  constructor
  · simp only [registerHandler]
    split_ifs <;> simp_all
  · intro hvb hva
    simp only [registerHandler]
    rw [if_neg (by simp [hvb])]
    rw [if_neg (by simp [hva])]
    rw [if_pos hdup]

/-- Witness for the amended C7: the duplicate request of the John Doe
record, issued while still eligible, gets 409 and the store is unchanged. -/
theorem duplicate_create_rejected_witness :
    (registerHandler ⟨2024, 6, 15⟩ 2 ⟨"John Doe", 1984, 6, 15, "Male"⟩
        [⟨1, "John Doe", 1984, 6, 15, "Male", 40⟩]).2
      = [⟨1, "John Doe", 1984, 6, 15, "Male", 40⟩] ∧
    (registerHandler ⟨2024, 6, 15⟩ 2 ⟨"John Doe", 1984, 6, 15, "Male"⟩
        [⟨1, "John Doe", 1984, 6, 15, "Male", 40⟩]).1 = 409 := by
  have h := duplicate_create_rejected ⟨2024, 6, 15⟩ 2 ⟨"John Doe", 1984, 6, 15, "Male"⟩
    [⟨1, "John Doe", 1984, 6, 15, "Male", 40⟩] (by decide)
  exact ⟨h.1, h.2 (by decide) (by decide)⟩

/-- Claim C8: an update whose recomputed age fails the eligibility rule
for the submitted gender is rejected with 400 and the store — in
particular the record under the targeted identifier — is unchanged. -/
theorem update_rejected_on_ineligible (today : Date) (id : Nat) (b : RegisterBody)
    (s : List UserRec)
    (hva : validateAge (calculateAge b.dobYear b.dobMonth b.dobDay today) b.gender ≠ []) :
    (updateHandler today id b s).1 = 400 ∧ (updateHandler today id b s).2 = s := by
  simp only [updateHandler]
  split_ifs <;>
    first
      | exact ⟨rfl, rfl⟩
      | exact absurd (List.length_eq_zero.1 (by omega)) hva

/-- Witness for C8: updating the John Doe record to a 1979-01-01 birth
date (recomputed age 45) on 2024-06-15 is rejected with 400, store
unchanged. -/
theorem update_rejected_on_ineligible_witness :
    (updateHandler ⟨2024, 6, 15⟩ 1 ⟨"John Doe", 1979, 1, 1, "Male"⟩
        [⟨1, "John Doe", 1984, 6, 15, "Male", 40⟩]).1 = 400 ∧
    (updateHandler ⟨2024, 6, 15⟩ 1 ⟨"John Doe", 1979, 1, 1, "Male"⟩
        [⟨1, "John Doe", 1984, 6, 15, "Male", 40⟩]).2
      = [⟨1, "John Doe", 1984, 6, 15, "Male", 40⟩] :=
  update_rejected_on_ineligible ⟨2024, 6, 15⟩ 1 ⟨"John Doe", 1979, 1, 1, "Male"⟩
    [⟨1, "John Doe", 1984, 6, 15, "Male", 40⟩] (by decide)

end RegForm
